import Mathlib

/-!
Verification of the advisor-voice-agent backend (src/backend/main.py).

The Python module is shallowly embedded below.  Strings are Lean `String`s
(ASCII is assumed for case folding and the regex character classes, matching
the data the service handles).  The two effectful ingredients of a turn are
passed in explicitly:

* the external Gemini call made by `detect_intent_and_extract` is an oracle
  value of type `ServiceOutcome` (either the raw response text or an error),
* the randomness of `generate_booking_code` is an oracle `CodeGen` giving the
  four random draws from the 36-character alphabet.

The process-wide mutable `STATE` dict and the `BOOKINGS` store become a
`World` record threaded through `next_agent_reply`.
-/

namespace AdvisorAgent

/-! ### Python string primitives -/

/-- The ASCII characters Python treats as whitespace, both in `str.strip()`
and in the regex class `\s`: space, tab, LF, VT, FF, CR and the separator
controls `\x1c`-`\x1f`. -/
def pySpaceChar (c : Char) : Bool :=
  c = ' ' || c = '\t' || c = '\n' || c = '\r' || c = '\x0b' || c = '\x0c' ||
    c = '\x1c' || c = '\x1d' || c = '\x1e' || c = '\x1f'

/-- Python `str.strip()`. -/
def pyStrip (s : String) : String :=
  String.mk (((s.data.dropWhile pySpaceChar).reverse.dropWhile pySpaceChar).reverse)

/-- Python `str.lower()` (ASCII). -/
def pyLower (s : String) : String := String.mk (s.data.map Char.toLower)

/-- Python `str.upper()` (ASCII). -/
def pyUpper (s : String) : String := String.mk (s.data.map Char.toUpper)

/-- Python `needle in hay` substring test. -/
def str_contains (hay needle : String) : Bool :=
  (List.range (hay.data.length + 1)).any fun i =>
    decide ((hay.data.drop i).take needle.data.length = needle.data)

/-- Python truthiness of an optional string (`None` and `""` are falsy). -/
def truthyO (o : Option String) : Bool :=
  match o with
  | none => false
  | some s => decide (s ≠ "")

/-- Python `x or d` for an optional string `x` and default `d`. -/
def orTruthy (o : Option String) (d : String) : String :=
  match o with
  | some s => if s = "" then d else s
  | none => d

/-- Python `(x or "")` for an optional string. -/
def orEmpty (o : Option String) : String := o.getD ""

/-! ### Configuration (main.py top level) -/

def TIMEZONE_LABEL : String := "IST"

def SECURE_LINK_BASE : String := "http://localhost:5173/secure"

def TOPICS : List String :=
  ["KYC/Onboarding", "SIP/Mandates", "Statements/Tax Docs",
   "Withdrawals & Timelines", "Account Changes/Nominee"]

/-- A slot from the fixed catalog.  The Python dict key `end` is rendered as
`slot_end` (`end` is a Lean keyword). -/
structure Slot where
  slot_id : String
  start : String
  slot_end : String
deriving DecidableEq, Repr

def slot101 : Slot := ⟨"SLOT-101", "2026-01-02 10:00 AM", "10:30 AM"⟩
def slot102 : Slot := ⟨"SLOT-102", "2026-01-02 11:00 AM", "11:30 AM"⟩
def slot103 : Slot := ⟨"SLOT-103", "2026-01-02 03:00 PM", "03:30 PM"⟩
def slot104 : Slot := ⟨"SLOT-104", "2026-01-02 05:00 PM", "05:30 PM"⟩

def MOCK_SLOTS : List Slot := [slot101, slot102, slot103, slot104]

/-- Placeholder slot used to make Python's list indexing total; every indexing
spot in the engine is guarded so the placeholder is never read on the states
the engine actually reaches. -/
def defaultSlot : Slot := ⟨"", "", ""⟩

/-- Python truthiness of the optional offered-slots list (`None` and `[]`
falsy). -/
def truthySlots (o : Option (List Slot)) : Bool :=
  match o with
  | none => false
  | some l => !l.isEmpty

/-! ### PII guard (`PII_PATTERNS`, `contains_pii`)

Each regex in `PII_PATTERNS` is rendered as the existence of a decomposition
of the text satisfying the pattern, which coincides with `re.search` finding a
match.  `re.IGNORECASE` is handled by matching on the lowercased text with
lowercase character classes (equivalent for ASCII).  `\b`, `\w`, `\d`, `\s`
follow Python's ASCII behaviour. -/

def isWordChar (c : Char) : Bool := c.isAlpha || c.isDigit || c = '_'

def wordAt (l : List Char) (i : Nat) : Bool :=
  decide (i < l.length) && isWordChar (l.getD i ' ')

/-- `\b` at position `i` (between `l[i-1]` and `l[i]`). -/
def boundaryAt (l : List Char) (i : Nat) : Bool :=
  (decide (0 < i) && wordAt l (i - 1)) != wordAt l i

/-- All characters of `l` in positions `[a, b)` satisfy `p`. -/
def rangeAll (l : List Char) (a b : Nat) (p : Char → Bool) : Bool :=
  (List.range (b - a)).all fun k => p (l.getD (a + k) ' ')

def emailLocalChar (c : Char) : Bool :=
  c.isLower || c.isDigit || c = '.' || c = '_' || c = '%' || c = '+' || c = '-'

def emailDomainChar (c : Char) : Bool :=
  c.isLower || c.isDigit || c = '.' || c = '-'

/-- `\b[A-Z0-9._%+-]+@[A-Z0-9.-]+\.[A-Z]{2,}\b` (ignore-case) on a lowercased
text: a local part `[a, b)`, `@` at `b`, a domain part `(b, c)`, `.` at `c`
and a 2+-letter tail `(c, d)`, with word boundaries at `a` and `d`. -/
def pat_email (l : List Char) : Bool :=
  (List.range l.length).any fun b =>
    decide (l.getD b ' ' = '@') &&
    ((List.range b).any fun a =>
      boundaryAt l a && rangeAll l a b emailLocalChar &&
      ((List.range (l.length + 1)).any fun c =>
        decide (b + 1 < c) && decide (l.getD c ' ' = '.') &&
        rangeAll l (b + 1) c emailDomainChar &&
        ((List.range (l.length + 1)).any fun d =>
          decide (c + 3 ≤ d) && decide (d ≤ l.length) &&
          rangeAll l (c + 1) d Char.isLower && boundaryAt l d)))

def phoneMidChar (c : Char) : Bool := c.isDigit || pySpaceChar c || c = '-'

/-- `\b(?:\+?\d[\d\s-]{8,}\d)\b`: an optional `+` at `i`, a first digit at
`s`, at least 8 middle characters from `[\d\s-]` and a final digit at `e`. -/
def pat_phone (l : List Char) : Bool :=
  (List.range (l.length + 1)).any fun i =>
    (List.range 2).any fun plus =>
      let s := i + plus
      (plus = 0 || decide (l.getD i ' ' = '+')) &&
      (l.getD s ' ').isDigit && boundaryAt l i &&
      ((List.range (l.length + 1)).any fun e =>
        decide (s + 9 ≤ e) && decide (e < l.length) &&
        (l.getD e ' ').isDigit && rangeAll l (s + 1) e phoneMidChar &&
        boundaryAt l (e + 1))

/-- `\b\d{n}\b` for `n = 10` and `n = 12`. -/
def pat_ndigits (n : Nat) (l : List Char) : Bool :=
  (List.range (l.length + 1)).any fun i =>
    decide (i + n ≤ l.length) && boundaryAt l i && boundaryAt l (i + n) &&
    rangeAll l i (i + n) Char.isDigit

/-- `\baccount\b.*\b\d+\b` (ignore-case, no DOTALL: `.` excludes `\n`). -/
def pat_account (l : List Char) : Bool :=
  (List.range (l.length + 1)).any fun i =>
    decide ((l.drop i).take 7 = "account".data) &&
    boundaryAt l i && boundaryAt l (i + 7) &&
    ((List.range (l.length + 1)).any fun j =>
      decide (i + 7 ≤ j) && rangeAll l (i + 7) j (fun c => decide (c ≠ '\n')) &&
      boundaryAt l j &&
      ((List.range (l.length + 1)).any fun k =>
        decide (j < k) && decide (k ≤ l.length) &&
        rangeAll l j k Char.isDigit && boundaryAt l k))

/-- `contains_pii`: true iff any of the five `PII_PATTERNS` matches. -/
def contains_pii (text : String) : Bool :=
  let l := (pyLower text).data
  pat_email l || pat_phone l || pat_ndigits 10 l || pat_ndigits 12 l ||
    pat_account l

/-! ### Booking-code helpers -/

/-- One candidate position of `re.search(r"\bNL-[A-Z0-9]{4}\b", text.upper())`. -/
def ebc_ok (l : List Char) (i : Nat) : Bool :=
  decide (i + 7 ≤ l.length) &&
  decide ((l.drop i).take 3 = "NL-".data) &&
  rangeAll l (i + 3) (i + 7) (fun c => c.isUpper || c.isDigit) &&
  boundaryAt l i && boundaryAt l (i + 7)

def ebc_from (l : List Char) : List Nat → Option String
  | [] => none
  | i :: rest =>
    if ebc_ok l i then some (String.mk ((l.drop i).take 7)) else ebc_from l rest

/-- `extract_booking_code`: leftmost match of `\bNL-[A-Z0-9]{4}\b` against the
uppercased text, or `None`. -/
def extract_booking_code (text : String) : Option String :=
  ebc_from (pyUpper text).data (List.range ((pyUpper text).data.length + 1))

/-- The choice alphabet `string.ascii_uppercase + string.digits`. -/
def codeChars : List Char := "ABCDEFGHIJKLMNOPQRSTUVWXYZ0123456789".data

/-- Oracle for `random.choice`: the four draws made by
`generate_booking_code`. -/
def CodeGen : Type := Fin 4 → Fin 36

/-- `generate_booking_code` with its randomness passed in. -/
def generate_booking_code (g : CodeGen) : String :=
  String.mk ('N' :: 'L' :: '-' ::
    [codeChars.getD (g 0).val 'A', codeChars.getD (g 1).val 'A',
     codeChars.getD (g 2).val 'A', codeChars.getD (g 3).val 'A'])

/-- `secure_link_for`. -/
def secure_link_for (code : String) : String :=
  SECURE_LINK_BASE ++ "?code=" ++ code

/-- The shape `NL-[A-Z0-9]{4}` of a generated booking code. -/
def code_format (s : String) : Bool :=
  decide (s.length = 7) && decide (s.data.take 3 = "NL-".data) &&
  (s.data.drop 3).all (fun c => c.isUpper || c.isDigit)

/-! ### Extraction contract -/

/-- The `{intent, topic, day_preference, time_preference}` contract between
extraction (service or fallback) and the dialogue engine.  Values of the
service JSON under those keys that are not strings are treated as absent. -/
structure ExtractionResult where
  intent : Option String
  topic : Option String
  day_preference : Option String
  time_preference : Option String
deriving DecidableEq, Repr

/-- `_json_fallback()`. -/
def json_fallback : ExtractionResult :=
  { intent := some "other", topic := none, day_preference := none,
    time_preference := none }

/-! ### JSON (`json.loads` on the brace-delimited span)

A recursive-descent parser for the JSON grammar accepted by Python's
`json.loads` (strict mode, `allow_nan` on).  Numbers are kept as lexemes;
`\uXXXX` escapes map through `Char.ofNat` (lone surrogates, which Lean `Char`
cannot represent, are out of modelled scope).  The fuel argument is at least
the input length plus one, which every path of the grammar respects, so fuel
exhaustion never fires before the input runs out. -/

inductive Json where
  | null
  | bool (b : Bool)
  | num (lexeme : String)
  | str (s : String)
  | arr (elems : List Json)
  | obj (entries : List (String × Json))

def jsonWsChar (c : Char) : Bool := c = ' ' || c = '\t' || c = '\n' || c = '\r'

def skipWs (l : List Char) : List Char := l.dropWhile jsonWsChar

def hexVal (c : Char) : Option Nat :=
  if c.isDigit then some (c.toNat - 48)
  else if 'a' ≤ c ∧ c ≤ 'f' then some (c.toNat - 87)
  else if 'A' ≤ c ∧ c ≤ 'F' then some (c.toNat - 55)
  else none

def parseJString : Nat → List Char → List Char → Option (String × List Char)
  | 0, _, _ => none
  | _ + 1, [], _ => none
  | fuel + 1, c :: rest, acc =>
    if c = '"' then some (String.mk acc.reverse, rest)
    else if c = '\\' then
      match rest with
      | [] => none
      | e :: rest2 =>
        if e = '"' then parseJString fuel rest2 ('"' :: acc)
        else if e = '\\' then parseJString fuel rest2 ('\\' :: acc)
        else if e = '/' then parseJString fuel rest2 ('/' :: acc)
        else if e = 'b' then parseJString fuel rest2 ('\x08' :: acc)
        else if e = 'f' then parseJString fuel rest2 ('\x0c' :: acc)
        else if e = 'n' then parseJString fuel rest2 ('\n' :: acc)
        else if e = 'r' then parseJString fuel rest2 ('\r' :: acc)
        else if e = 't' then parseJString fuel rest2 ('\t' :: acc)
        else if e = 'u' then
          match rest2 with
          | h1 :: h2 :: h3 :: h4 :: rest3 =>
            match hexVal h1, hexVal h2, hexVal h3, hexVal h4 with
            | some a, some b, some c2, some d =>
              parseJString fuel rest3
                (Char.ofNat (((a * 16 + b) * 16 + c2) * 16 + d) :: acc)
            | _, _, _, _ => none
          | _ => none
        else none
    else if c.toNat < 32 then none
    else parseJString fuel rest (c :: acc)

def expPart (eChar : String) (r orig : List Char) : String × List Char :=
  let sgn : String × List Char :=
    match r with
    | '+' :: rr => ("+", rr)
    | '-' :: rr => ("-", rr)
    | _ => ("", r)
  let ds := sgn.2.takeWhile Char.isDigit
  if ds.isEmpty then ("", orig)
  else (eChar ++ sgn.1 ++ String.mk ds, sgn.2.dropWhile Char.isDigit)

def parseNumber (l : List Char) : Option (String × List Char) :=
  let head : String × List Char :=
    match l with
    | '-' :: r => ("-", r)
    | _ => ("", l)
  match head.2 with
  | [] => none
  | c :: _ =>
    if c.isDigit = false then none
    else
      let ipart : String × List Char :=
        match head.2 with
        | '0' :: r => ("0", r)
        | l1 => (String.mk (l1.takeWhile Char.isDigit), l1.dropWhile Char.isDigit)
      let fpart : String × List Char :=
        match ipart.2 with
        | '.' :: r =>
          if (r.takeWhile Char.isDigit).isEmpty then ("", ipart.2)
          else (String.mk ('.' :: r.takeWhile Char.isDigit), r.dropWhile Char.isDigit)
        | _ => ("", ipart.2)
      let epart : String × List Char :=
        match fpart.2 with
        | 'e' :: r => expPart "e" r fpart.2
        | 'E' :: r => expPart "E" r fpart.2
        | _ => ("", fpart.2)
      some (head.1 ++ ipart.1 ++ fpart.1 ++ epart.1, epart.2)

mutual

def parseValue : Nat → List Char → Option (Json × List Char)
  | 0, _ => none
  | _ + 1, [] => none
  | fuel + 1, c :: rest =>
    if c = '{' then
      match skipWs rest with
      | '}' :: r2 => some (Json.obj [], r2)
      | r2 =>
        match parseMembers fuel r2 [] with
        | some (ms, r3) => some (Json.obj ms, r3)
        | none => none
    else if c = '[' then
      match skipWs rest with
      | ']' :: r2 => some (Json.arr [], r2)
      | r2 =>
        match parseElems fuel r2 [] with
        | some (es, r3) => some (Json.arr es, r3)
        | none => none
    else if c = '"' then
      match parseJString fuel rest [] with
      | some (s, r2) => some (Json.str s, r2)
      | none => none
    else if c = 't' then
      match rest with
      | 'r' :: 'u' :: 'e' :: r2 => some (Json.bool true, r2)
      | _ => none
    else if c = 'f' then
      match rest with
      | 'a' :: 'l' :: 's' :: 'e' :: r2 => some (Json.bool false, r2)
      | _ => none
    else if c = 'n' then
      match rest with
      | 'u' :: 'l' :: 'l' :: r2 => some (Json.null, r2)
      | _ => none
    else if c = 'N' then
      match rest with
      | 'a' :: 'N' :: r2 => some (Json.num "NaN", r2)
      | _ => none
    else if c = 'I' then
      match rest with
      | 'n' :: 'f' :: 'i' :: 'n' :: 'i' :: 't' :: 'y' :: r2 =>
        some (Json.num "Infinity", r2)
      | _ => none
    else if c = '-' then
      match rest with
      | 'I' :: 'n' :: 'f' :: 'i' :: 'n' :: 'i' :: 't' :: 'y' :: r2 =>
        some (Json.num "-Infinity", r2)
      | _ =>
        match parseNumber (c :: rest) with
        | some (s, r2) => some (Json.num s, r2)
        | none => none
    else
      match parseNumber (c :: rest) with
      | some (s, r2) => some (Json.num s, r2)
      | none => none

def parseMembers : Nat → List Char → List (String × Json) →
    Option (List (String × Json) × List Char)
  | 0, _, _ => none
  | fuel + 1, l, acc =>
    match skipWs l with
    | '"' :: r1 =>
      match parseJString fuel r1 [] with
      | some (key, r2) =>
        match skipWs r2 with
        | ':' :: r3 =>
          match parseValue fuel (skipWs r3) with
          | some (v, r4) =>
            match skipWs r4 with
            | ',' :: r5 => parseMembers fuel r5 (acc ++ [(key, v)])
            | '}' :: r5 => some (acc ++ [(key, v)], r5)
            | _ => none
          | none => none
        | _ => none
      | none => none
    | _ => none

def parseElems : Nat → List Char → List Json → Option (List Json × List Char)
  | 0, _, _ => none
  | fuel + 1, l, acc =>
    match parseValue fuel (skipWs l) with
    | some (v, r1) =>
      match skipWs r1 with
      | ',' :: r2 => parseElems fuel r2 (acc ++ [v])
      | ']' :: r2 => some (acc ++ [v], r2)
      | _ => none
    | none => none

end

/-- `json.loads`: parse a full JSON document (leading/trailing whitespace
allowed, anything else after the value is an error). -/
def json_loads (s : String) : Option Json :=
  match parseValue (s.data.length + 1) (skipWs s.data) with
  | some (v, rest) => if (skipWs rest).isEmpty then some v else none
  | none => none

/-- `extract_first_json_object`: the regex `\{[\s\S]*\}` matches from the
first `{` to the last `}` (greedy, newlines included) when the latter is
further right; the span is then fed to `json.loads`. -/
def extract_first_json_object (text : String) : Option (List (String × Json)) :=
  if text = "" then none
  else
    let l := text.data
    match l.findIdx? (fun c => c = '{') with
    | none => none
    | some i =>
      match l.reverse.findIdx? (fun c => c = '}') with
      | none => none
      | some rj =>
        let j := l.length - 1 - rj
        if i < j then
          match json_loads (String.mk ((l.drop i).take (j - i + 1))) with
          | some (Json.obj entries) => some entries
          | _ => none
        else none

/-- `dict.get` on a parsed JSON object (duplicate keys: last one wins, as in
`json.loads`). -/
def json_get (entries : List (String × Json)) (k : String) : Option Json :=
  (entries.reverse.find? (fun p => p.1 = k)).map (fun p => p.2)

def json_str : Option Json → Option String
  | some (Json.str s) => some s
  | _ => none

/-- Projection of a parsed service object onto the extraction contract. -/
def extraction_of_obj (entries : List (String × Json)) : ExtractionResult :=
  { intent := json_str (json_get entries "intent"),
    topic := json_str (json_get entries "topic"),
    day_preference := json_str (json_get entries "day_preference"),
    time_preference := json_str (json_get entries "time_preference") }

/-! ### Conversation state (`STATE`, `BOOKINGS`) -/

/-- The process-wide `STATE` dict. -/
structure ConversationState where
  disclaimer_done : Bool
  intent : Option String
  topic : Option String
  day_pref : Option String
  time_pref : Option String
  offered_slots : Option (List Slot)
  selected_slot : Option Slot
  booking_code : Option String
  provided_code : Option String
deriving DecidableEq, Repr

/-- The initial value of `STATE`. -/
def initState : ConversationState :=
  { disclaimer_done := false, intent := none, topic := none, day_pref := none,
    time_pref := none, offered_slots := none, selected_slot := none,
    booking_code := none, provided_code := none }

/-- A record of the `BOOKINGS` store. -/
structure Booking where
  topic : String
  slot : Slot
  timezone : String
deriving DecidableEq, Repr

/-- `STATE` together with the `BOOKINGS` store. -/
structure World where
  state : ConversationState
  bookings : List (String × Booking)
deriving DecidableEq, Repr

def initWorld : World := { state := initState, bookings := [] }

/-- `BOOKINGS[code] = b` (later writes shadow earlier ones). -/
def dict_insert (m : List (String × Booking)) (k : String) (v : Booking) :
    List (String × Booking) := (k, v) :: m

/-- `BOOKINGS.get(code)`. -/
def dict_get (m : List (String × Booking)) (k : String) : Option Booking :=
  (m.find? (fun p => p.1 = k)).map (fun p => p.2)

/-- `reset_booking_state`. -/
def reset_booking_state (s : ConversationState) : ConversationState :=
  { s with
    topic := none, day_pref := none, time_pref := none,
    offered_slots := none, selected_slot := none, booking_code := none }

/-- `reset_reschedule_cancel`. -/
def reset_reschedule_cancel (s : ConversationState) : ConversationState :=
  { s with provided_code := none }

/-! ### Local fallback parser (`local_intent_fallback`) -/

/-- Topic inference of the fallback parser over the lowercased text. -/
def lf_topic (t : String) : Option String :=
  if str_contains t "kyc" || str_contains t "onboard" then some "KYC/Onboarding"
  else if str_contains t "sip" || str_contains t "mandate" then some "SIP/Mandates"
  else if str_contains t "statement" || str_contains t "tax" then
    some "Statements/Tax Docs"
  else if str_contains t "withdraw" || str_contains t "timeline" ||
      str_contains t "redemption" then some "Withdrawals & Timelines"
  else if str_contains t "nominee" || str_contains t "account change" ||
      str_contains t "profile" then some "Account Changes/Nominee"
  else none

/-- Day-preference inference of the fallback parser. -/
def lf_day (t : String) : Option String :=
  if str_contains t "tomorrow" then some "tomorrow"
  else if str_contains t "today" then some "today"
  else
    ["monday", "tuesday", "wednesday", "thursday", "friday", "saturday",
     "sunday"].find? (fun d => str_contains t d)

/-- Time-preference inference of the fallback parser. -/
def lf_time (t : String) : Option String :=
  if str_contains t "morning" then some "morning"
  else if str_contains t "afternoon" then some "afternoon"
  else if str_contains t "evening" || str_contains t "night" then some "evening"
  else none

/-- Explicit intent-keyword inference of the fallback parser (before the
escalation rules). -/
def lf_intent_kw (t : String) : String :=
  if str_contains t "reschedule" || str_contains t "move my" ||
      str_contains t "change my time" || str_contains t "change slot" then
    "reschedule"
  else if str_contains t "cancel" || str_contains t "call off" ||
      str_contains t "delete booking" then "cancel"
  else if str_contains t "prepare" || str_contains t "what should i bring" ||
      str_contains t "what to prepare" then "what_to_prepare"
  else if str_contains t "availability" || str_contains t "available" ||
      str_contains t "check availability" || str_contains t "any slots" then
    "check_availability"
  else if str_contains t "book" || str_contains t "appointment" ||
      str_contains t "schedule" then "book_new"
  else "other"

/-- `local_intent_fallback`.  It reads the live `STATE` for its mid-booking
continuation rule, so it takes the state as an argument. -/
def local_intent_fallback (st : ConversationState) (user_text : String) :
    ExtractionResult :=
  let t := pyLower user_text
  let topic := lf_topic t
  let day_preference := lf_day t
  let time_preference := lf_time t
  let intent0 := lf_intent_kw t
  let gave_booking_fields :=
    truthyO topic || truthyO day_preference || truthyO time_preference
  let intent1 :=
    if (decide (intent0 = "other") || decide (intent0 = "check_availability")) &&
        gave_booking_fields then "book_new"
    else intent0
  let mid_booking := truthyO st.topic || truthyO st.day_pref || truthyO st.time_pref
  let intent2 :=
    if decide (intent1 = "other") && mid_booking && gave_booking_fields then
      "book_new"
    else intent1
  { intent := some intent2, topic := topic, day_preference := day_preference,
    time_preference := time_preference }

/-! ### Extraction service adapter (`detect_intent_and_extract`) -/

/-- Outcome of the `gemini.models.generate_content` call: the response text
(`resp.text or ""`), or any raised exception. -/
inductive ServiceOutcome where
  | ok (response : String)
  | err
deriving DecidableEq, Repr

/-- `detect_intent_and_extract`.  Total: every branch of the Python function
returns a dict. -/
def detect_intent_and_extract (st : ConversationState) (user_text : String)
    (svc : ServiceOutcome) : ExtractionResult :=
  if user_text = "" ∨ pyStrip user_text = "" then json_fallback
  else
    match svc with
    | ServiceOutcome.ok response =>
      match extract_first_json_object (pyStrip response) with
      | some entries =>
        if entries.isEmpty then json_fallback else extraction_of_obj entries
      | none => json_fallback
    | ServiceOutcome.err => local_intent_fallback st user_text

/-! ### Slot candidate selector and waitlist -/

/-- `mock_pick_two_slots` (the day preference is accepted but unused, as in
the source). -/
def mock_pick_two_slots (day_pref time_pref : Option String) : List Slot :=
  let tp := pyLower (orEmpty time_pref)
  let candidates :=
    if str_contains tp "even" || str_contains tp "5" || str_contains tp "6" then
      [slot104, slot103, slot102]
    else if str_contains tp "after" || str_contains tp "3" ||
        str_contains tp "4" then [slot103, slot102, slot104]
    else [slot101, slot102, slot103]
  candidates.take 2

/-- `waitlist_flow_reply` (keeps or generates a booking code and stores it). -/
def waitlist_flow_reply (w : World) (topic _day_pref _time_pref : String)
    (g : CodeGen) : World × String :=
  let code :=
    if truthyO w.state.booking_code then w.state.booking_code.getD ""
    else generate_booking_code g
  ({ w with state := { w.state with booking_code := some code } },
   "I don’t see a matching slot right now. I’ve placed you on a waitlist for "
     ++ topic ++ ". Your booking code is " ++ code ++
     ". Please use this secure link to share contact details so we can notify you: "
     ++ secure_link_for code ++ ".")

/-- `PREP_GUIDES` as a function (`dict.get(topic, [])`). -/
def PREP_GUIDES (topic : String) : List String :=
  if topic = "KYC/Onboarding" then
    ["Have your PAN and address proof handy (as applicable).",
     "Be ready to confirm your onboarding status and any KYC error message you saw."]
  else if topic = "SIP/Mandates" then
    ["Know your bank name and mandate status (created/pending/failed).",
     "Have approximate SIP amount and frequency you’re trying to set up."]
  else if topic = "Statements/Tax Docs" then
    ["Mention which period you need (FY year range).",
     "Clarify whether you need statement, capital gains, or tax certificate."]
  else if topic = "Withdrawals & Timelines" then
    ["Share the date you requested withdrawal and current status.",
     "Be ready to confirm the expected timeline you were told (if any)."]
  else if topic = "Account Changes/Nominee" then
    ["Know what change you want: address, bank, nominee, or other profile detail.",
     "Be ready to confirm whether you already attempted the change in-app."]
  else []

/-! ### Fixed reply strings of the dialogue engine -/

def repeatReply : String := "Sorry, I didn’t catch that. Please repeat."

def pii_reply (s : ConversationState) : String :=
  let code := if truthyO s.booking_code then s.booking_code.getD "" else "NL-XXXX"
  "For security, please don’t share personal details on this call. " ++
    "Use this secure link to add contact details: " ++ secure_link_for code ++
    ". Now, what topic is this about?"

def disclaimerReply : String :=
  "Hi — this is the Advisor Appointment Scheduler. " ++
    "This call is for informational support only and not investment advice. " ++
    "Would you like to book a new slot, reschedule, cancel, check availability, or ask what to prepare?"

def adviceReply : String :=
  "I can’t provide investment advice or recommendations. " ++
    "I can help with account processes or book an informational advisor session. " ++
    "Which topic is this for: KYC/Onboarding, SIP/Mandates, Statements/Tax Docs, Withdrawals & Timelines, or Account Changes/Nominee?"

def askCodeReply : String :=
  "Sure. Please tell me your booking code, for example NL-A742."

def cancelDoneReply (code : String) : String :=
  "Done. I’ve noted a cancellation request for booking code " ++ code ++ "."

def reschedGotReply (code : String) : String :=
  "Got it. Booking code " ++ code ++
    ". What topic is this for, and what day and time preference in " ++
    TIMEZONE_LABEL ++ "?"

def prepWhichTopicReply : String :=
  "Sure — which topic: KYC/Onboarding, SIP/Mandates, Statements/Tax Docs, Withdrawals & Timelines, or Account Changes/Nominee?"

def numberTips (tips : List String) : String :=
  String.intercalate " "
    (tips.enum.map (fun p => toString (p.1 + 1) ++ ". " ++ p.2))

def prepReply (topic : String) : String :=
  let tips := PREP_GUIDES topic
  let tip_text := if tips.isEmpty then "" else numberTips tips
  "For " ++ topic ++ ", here’s what to prepare: " ++ tip_text

def whichTopicReply : String :=
  "Which topic is this for: KYC/Onboarding, SIP/Mandates, Statements/Tax Docs, Withdrawals & Timelines, or Account Changes/Nominee?"

def availDayReply : String :=
  "What day should I check for? For example tomorrow or Friday."

def availTimeReply : String :=
  "What time preference in " ++ TIMEZONE_LABEL ++ "? Morning, afternoon, or evening?"

def availReply (topic : String) (slots : List Slot) : String :=
  "For " ++ topic ++ ", I see two options in " ++ TIMEZONE_LABEL ++
    ". Option 1: " ++ (slots.getD 0 defaultSlot).start ++ " " ++ TIMEZONE_LABEL ++
    ". Option 2: " ++ (slots.getD 1 defaultSlot).start ++ " " ++ TIMEZONE_LABEL ++ "."

def menuReply : String :=
  "I can help you book, reschedule, cancel, check availability, or tell you what to prepare. What would you like to do?"

def askDayReply : String :=
  "What day works best for you? For example tomorrow, Friday, or next week."

def askTimeReply : String :=
  "Do you prefer morning, afternoon, or evening " ++ TIMEZONE_LABEL ++ "?"

def offerReply (slots : List Slot) : String :=
  "I have two options in " ++ TIMEZONE_LABEL ++ ". Option 1: " ++
    (slots.getD 0 defaultSlot).start ++ " " ++ TIMEZONE_LABEL ++ ". Option 2: " ++
    (slots.getD 1 defaultSlot).start ++ " " ++ TIMEZONE_LABEL ++
    ". Which option do you prefer, 1 or 2?"

def optionPromptReply : String := "Please say option 1 or option 2."

def confirmQuestionReply (topic : String) (slot : Slot) : String :=
  "Just to confirm in " ++ TIMEZONE_LABEL ++ ": " ++ topic ++ " on " ++
    slot.start ++ " " ++ TIMEZONE_LABEL ++ ". Is that correct? Say yes or no."

def bookedReply (code : String) (slot : Slot) (topic : String) : String :=
  "Great. Your booking code is " ++ code ++ ". Your tentative slot is " ++
    slot.start ++ " " ++ TIMEZONE_LABEL ++ " for " ++ topic ++
    ". For security, I can’t collect personal details on this call. " ++
    "Please use this secure link to finish details: " ++ secure_link_for code ++ "."

def retryOptionReply : String := "No problem. Do you prefer option 1 or option 2?"

def allSetReply : String := "All set. Do you need anything else?"

/-! ### Dialogue engine (`next_agent_reply`)

The book-new fall-through chain of main.py (topic → day → time → offer →
select → confirm) is split into one definition per step; a step either
returns early with a question or passes the updated `World` to the next
step, exactly as the sequence of `if not STATE[...]` blocks does. -/

/-- Advice-refusal keyword gate (line 393). -/
def advice_kw (lower : String) : Bool :=
  str_contains lower "buy" || str_contains lower "sell" ||
    str_contains lower "invest" || str_contains lower "stock" ||
    str_contains lower "mutual fund" || str_contains lower "recommend"

/-- `topic in TOPICS` for the optional extracted topic. -/
def optMemTopics (o : Option String) : Bool :=
  match o with
  | some s => decide (s ∈ TOPICS)
  | none => false

/-- The intent a turn is dispatched on: `(info.get("intent") or
"other").strip()`, overridden to `book_new` when the booking flow has
started (line 404). -/
def effective_intent (s : ConversationState) (info : ExtractionResult) : String :=
  let intent := pyStrip (orTruthy info.intent "other")
  if truthySlots s.offered_slots || truthyO s.topic then "book_new" else intent

/-- Confirmation question after a slot is selected (lines 519-524). -/
def confirm_reply (w : World) : World × String :=
  let slot := w.state.selected_slot.getD defaultSlot
  (w, confirmQuestionReply (w.state.topic.getD "") slot)

/-- Final booking step (lines 526-551). -/
def book_code_step (w : World) (lower : String) (g : CodeGen) : World × String :=
  if truthyO w.state.booking_code then (w, allSetReply)
  else if str_contains lower "yes" then
    let code := generate_booking_code g
    let slot := w.state.selected_slot.getD defaultSlot
    ({ state := { w.state with booking_code := some code },
       bookings := dict_insert w.bookings code
         { topic := w.state.topic.getD "", slot := slot,
           timezone := TIMEZONE_LABEL } },
     bookedReply code slot (w.state.topic.getD ""))
  else
    ({ w with state := { w.state with selected_slot := none } }, retryOptionReply)

/-- Slot selection step (lines 511-524).  A selected slot is a nonempty dict
in Python, hence always truthy: `isSome` is its truthiness. -/
def book_select_step (w : World) (lower : String) (g : CodeGen) : World × String :=
  if w.state.selected_slot.isSome then book_code_step w lower g
  else if str_contains lower "1" || str_contains lower "one" then
    confirm_reply { w with state := { w.state with
      selected_slot := some ((w.state.offered_slots.getD []).getD 0 defaultSlot) } }
  else if str_contains lower "2" || str_contains lower "two" then
    confirm_reply { w with state := { w.state with
      selected_slot := some ((w.state.offered_slots.getD []).getD 1 defaultSlot) } }
  else (w, optionPromptReply)

/-- Slot offering step (lines 498-509). -/
def book_offer_step (w : World) (lower : String) (g : CodeGen) : World × String :=
  if truthySlots w.state.offered_slots then book_select_step w lower g
  else
    let slots := mock_pick_two_slots w.state.day_pref w.state.time_pref
    if slots.isEmpty || slots.length < 2 then
      waitlist_flow_reply w (w.state.topic.getD "") (orEmpty w.state.day_pref)
        (orEmpty w.state.time_pref) g
    else
      ({ w with state := { w.state with offered_slots := some slots } },
       offerReply slots)

/-- Time-preference step (lines 491-496). -/
def book_time_step (w : World) (info : ExtractionResult) (lower : String)
    (g : CodeGen) : World × String :=
  if truthyO w.state.time_pref then book_offer_step w lower g
  else if truthyO info.time_preference then
    book_offer_step
      { w with state := { w.state with time_pref := info.time_preference } }
      lower g
  else (w, askTimeReply)

/-- Day-preference step (lines 484-489). -/
def book_day_step (w : World) (info : ExtractionResult) (lower : String)
    (g : CodeGen) : World × String :=
  if truthyO w.state.day_pref then book_time_step w info lower g
  else if truthyO info.day_preference then
    book_time_step
      { w with state := { w.state with day_pref := info.day_preference } }
      info lower g
  else (w, askDayReply)

/-- Topic step of the booking flow (lines 477-482). -/
def book_topic_step (w : World) (info : ExtractionResult) (lower : String)
    (g : CodeGen) : World × String :=
  if truthyO w.state.topic then book_day_step w info lower g
  else if optMemTopics info.topic then
    book_day_step { w with state := { w.state with topic := info.topic } }
      info lower g
  else (w, whichTopicReply)

/-- Common tail of a cancel: read the known code, clear all sub-state,
report (lines 418-421). -/
def cancel_finish (w : World) : World × String :=
  let code := w.state.provided_code.getD ""
  ({ w with state := reset_reschedule_cancel (reset_booking_state w.state) },
   cancelDoneReply code)

/-- Branches following cancel and reschedule: prepare, availability, the
generic menu, and the book-new chain (lines 440-551). -/
def dispatch_tail (w : World) (intent lower : String) (info : ExtractionResult)
    (g : CodeGen) : World × String :=
  if intent = "what_to_prepare" then
    match info.topic with
    | some tp =>
      if tp ∈ TOPICS then (w, prepReply tp) else (w, prepWhichTopicReply)
    | none => (w, prepWhichTopicReply)
  else if intent = "check_availability" then
    if !optMemTopics info.topic then (w, whichTopicReply)
    else if !truthyO info.day_preference then (w, availDayReply)
    else if !truthyO info.time_preference then (w, availTimeReply)
    else
      let slots := mock_pick_two_slots info.day_preference info.time_preference
      (w, availReply (info.topic.getD "") slots)
  else if intent ≠ "book_new" then
    if str_contains lower "book" || str_contains lower "appointment" ||
        str_contains lower "slot" then
      book_topic_step { w with state := { w.state with intent := some "book_new" } }
        info lower g
    else (w, menuReply)
  else book_topic_step w info lower g

/-- Intent dispatch (lines 400-551): record the effective intent, then the
cancel and reschedule branches, then the tail. -/
def dispatch (w : World) (text' lower : String) (info : ExtractionResult)
    (g : CodeGen) : World × String :=
  let intent := effective_intent w.state info
  let w1 : World := { w with state := { w.state with intent := some intent } }
  if intent = "cancel" then
    if truthyO w1.state.provided_code then cancel_finish w1
    else
      match extract_booking_code text' with
      | some c =>
        cancel_finish { w1 with state := { w1.state with provided_code := some c } }
      | none => (w1, askCodeReply)
  else if intent = "reschedule" then
    if truthyO w1.state.provided_code then
      dispatch_tail
        { w1 with state := { w1.state with intent := some "book_new" } }
        "book_new" lower info g
    else
      match extract_booking_code text' with
      | some c =>
        ({ w1 with state :=
            { (reset_booking_state w1.state) with provided_code := some c } },
         reschedGotReply c)
      | none => (w1, askCodeReply)
  else dispatch_tail w1 intent lower info g

/-- `next_agent_reply`: one full turn over the `World`, with the service
outcome and the booking-code randomness passed as oracles. -/
def next_agent_reply (w : World) (user_text : String) (svc : ServiceOutcome)
    (g : CodeGen) : World × String :=
  let text' := pyStrip user_text
  if text' = "" then (w, repeatReply)
  else if contains_pii text' then (w, pii_reply w.state)
  else if w.state.disclaimer_done = false then
    ({ w with state := { w.state with disclaimer_done := true } },
     disclaimerReply)
  else
    let lower := pyLower text'
    if advice_kw lower then (w, adviceReply)
    else dispatch w text' lower (detect_intent_and_extract w.state text' svc) g

/-! ### Small facts about the embedded functions -/

theorem mock_pick_len (d tp : Option String) :
    (mock_pick_two_slots d tp).length = 2 := by
  simp only [mock_pick_two_slots]
  split_ifs <;> rfl

theorem lf_topic_ne (t s : String) (h : lf_topic t = some s) : s ≠ "" := by
  unfold lf_topic at h
  split_ifs at h <;> simp_all <;> subst h <;> decide

theorem lf_day_ne (t s : String) (h : lf_day t = some s) : s ≠ "" := by
  unfold lf_day at h
  split_ifs at h
  · simp_all
    subst h; decide
  · simp_all
    subst h; decide
  · have hm := List.mem_of_find?_eq_some h
    have hall : (["monday", "tuesday", "wednesday", "thursday", "friday",
        "saturday", "sunday"].all (fun d => decide (d ≠ ""))) = true := by decide
    have := List.all_eq_true.mp hall s hm
    exact of_decide_eq_true this

theorem lf_time_ne (t s : String) (h : lf_time t = some s) : s ≠ "" := by
  unfold lf_time at h
  split_ifs at h <;> simp_all <;> subst h <;> decide

theorem truthyO_of_some_ne (o : Option String) (s : String) (ho : o = some s)
    (hs : s ≠ "") : truthyO o = true := by
  subst ho
  simp [truthyO, hs]

/-! ### Reachable states and their invariant -/

/-- Worlds reachable from the initial state by any sequence of turns, with
arbitrary texts, service outcomes and random draws. -/
inductive Reachable : World → Prop where
  | init : Reachable initWorld
  | step (w : World) (t : String) (svc : ServiceOutcome) (g : CodeGen) :
      Reachable w → Reachable (next_agent_reply w t svc g).1

/-- Invariant maintained by every turn: stored strings are non-empty (so
Python truthiness agrees with non-nullness), stored topics come from
`TOPICS`, offered slot lists have length 2, a topic implies the disclaimer
was shown, and the booking sub-state is filled strictly left to right. -/
structure StateWF (s : ConversationState) : Prop where
  topic_ok : ∀ x, s.topic = some x → x ∈ TOPICS
  day_ok : ∀ x, s.day_pref = some x → x ≠ ""
  time_ok : ∀ x, s.time_pref = some x → x ≠ ""
  offered_ok : ∀ l, s.offered_slots = some l → l.length = 2
  code_ok : ∀ x, s.booking_code = some x → x ≠ ""
  provided_ok : ∀ x, s.provided_code = some x → x ≠ ""
  disc_of_topic : s.topic ≠ none → s.disclaimer_done = true
  ord_day : s.day_pref ≠ none → s.topic ≠ none
  ord_time : s.time_pref ≠ none → s.day_pref ≠ none
  ord_off : s.offered_slots ≠ none → s.time_pref ≠ none
  ord_sel : s.selected_slot ≠ none → s.offered_slots ≠ none
  ord_code : s.booking_code ≠ none → s.selected_slot ≠ none

theorem topics_ne (x : String) (hx : x ∈ TOPICS) : x ≠ "" := by
  have hall : (TOPICS.all (fun d => decide (d ≠ ""))) = true := by decide
  exact of_decide_eq_true (List.all_eq_true.mp hall x hx)

theorem truthyO_false_none (o : Option String)
    (h : truthyO o = false) (hok : ∀ x, o = some x → x ≠ "") : o = none := by
  cases o with
  | none => rfl
  | some s =>
    exfalso
    simp [truthyO] at h
    exact hok s rfl h

theorem truthySlots_false_none (o : Option (List Slot))
    (h : truthySlots o = false) (hok : ∀ l, o = some l → l.length = 2) :
    o = none := by
  cases o with
  | none => rfl
  | some l =>
    exfalso
    simp [truthySlots, List.isEmpty_iff] at h
    have := hok l rfl
    rw [h] at this
    simp at this

theorem truthyO_some (o : Option String) (h : truthyO o = true) :
    ∃ s, o = some s ∧ s ≠ "" := by
  cases o with
  | none => simp [truthyO] at h
  | some s =>
    simp [truthyO] at h
    exact ⟨s, rfl, h⟩

theorem truthyO_of_wf_ne (o : Option String) (hok : ∀ x, o = some x → x ≠ "")
    (h : o ≠ none) : truthyO o = true := by
  obtain ⟨s, hs⟩ := Option.ne_none_iff_exists'.mp h
  exact truthyO_of_some_ne o s hs (hok s hs)

theorem generate_ne (g : CodeGen) : generate_booking_code g ≠ "" := by
  intro h
  have hd := congrArg String.data h
  simp [generate_booking_code] at hd

theorem codeChars_ok (k : Fin 36) :
    ((codeChars.getD k.val 'A').isUpper || (codeChars.getD k.val 'A').isDigit) = true := by
  revert k
  decide

theorem generate_code_format (g : CodeGen) :
    code_format (generate_booking_code g) = true := by
  unfold code_format generate_booking_code
  rw [Bool.and_eq_true, Bool.and_eq_true]
  refine ⟨⟨rfl, rfl⟩, ?_⟩
  rw [List.all_eq_true]
  intro c hc
  have hd : ((String.mk ('N' :: 'L' :: '-' ::
      [codeChars.getD (g 0).val 'A', codeChars.getD (g 1).val 'A',
       codeChars.getD (g 2).val 'A', codeChars.getD (g 3).val 'A'])).data.drop 3) =
      [codeChars.getD (g 0).val 'A', codeChars.getD (g 1).val 'A',
       codeChars.getD (g 2).val 'A', codeChars.getD (g 3).val 'A'] := rfl
  rw [hd, List.mem_cons, List.mem_cons, List.mem_cons, List.mem_cons] at hc
  rcases hc with rfl | rfl | rfl | rfl | hc
  · exact codeChars_ok (g 0)
  · exact codeChars_ok (g 1)
  · exact codeChars_ok (g 2)
  · exact codeChars_ok (g 3)
  · simp at hc

theorem ebc_from_ne (l : List Char) (idxs : List Nat) (c : String)
    (h : ebc_from l idxs = some c) : c ≠ "" := by
  induction idxs with
  | nil => simp [ebc_from] at h
  | cons i rest ih =>
    unfold ebc_from at h
    by_cases hq : ebc_ok l i = true
    · rw [if_pos hq] at h
      have hnl : (l.drop i).take 3 = "NL-".data := by
        unfold ebc_ok at hq
        simp only [Bool.and_eq_true, decide_eq_true_eq] at hq
        exact hq.1.1.1.2
      intro hc
      have hstr : String.mk ((l.drop i).take 7) = "" := by
        rw [← hc]
        exact Option.some.inj h
      have hdata : (l.drop i).take 7 = [] := congrArg String.data hstr
      have h3 : (l.drop i).take 3 = ([] : List Char) := by
        have h7 : ((l.drop i).take 7).take 3 = ([] : List Char) := by
          rw [hdata]
          rfl
        rwa [List.take_take] at h7
      rw [h3] at hnl
      exact absurd hnl (by decide)
    · rw [if_neg hq] at h
      exact ih h

theorem ebc_ne (t c : String) (h : extract_booking_code t = some c) : c ≠ "" :=
  ebc_from_ne _ _ _ h

/-! Preservation of the invariant by single field updates. -/

theorem wf_set_intent (s : ConversationState) (i : Option String)
    (h : StateWF s) : StateWF { s with intent := i } := by
  obtain ⟨h1, h2, h3, h4, h5, h6, h7, h8, h9, h10, h11, h12⟩ := h
  exact ⟨h1, h2, h3, h4, h5, h6, h7, h8, h9, h10, h11, h12⟩

theorem wf_set_disclaimer (s : ConversationState) (h : StateWF s) :
    StateWF { s with disclaimer_done := true } := by
  obtain ⟨h1, h2, h3, h4, h5, h6, _, h8, h9, h10, h11, h12⟩ := h
  exact ⟨h1, h2, h3, h4, h5, h6, fun _ => rfl, h8, h9, h10, h11, h12⟩

theorem wf_reset_all (s : ConversationState) : StateWF
    (reset_reschedule_cancel (reset_booking_state s)) := by
  refine ⟨?_, ?_, ?_, ?_, ?_, ?_, ?_, ?_, ?_, ?_, ?_, ?_⟩ <;>
    simp [reset_reschedule_cancel, reset_booking_state]

theorem wf_resched_store (s : ConversationState) (c : String) (hc : c ≠ "") :
    StateWF { reset_booking_state s with provided_code := some c } := by
  refine ⟨?_, ?_, ?_, ?_, ?_, ?_, ?_, ?_, ?_, ?_, ?_, ?_⟩
  · intro x hx
    exact absurd hx (by simp [reset_booking_state])
  · intro x hx
    exact absurd hx (by simp [reset_booking_state])
  · intro x hx
    exact absurd hx (by simp [reset_booking_state])
  · intro x hx
    exact absurd hx (by simp [reset_booking_state])
  · intro x hx
    exact absurd hx (by simp [reset_booking_state])
  · intro x hx
    have : c = x := by
      have hsx : some c = some x := hx
      exact Option.some.inj hsx
    rw [← this]
    exact hc
  · intro hx
    simp [reset_booking_state] at hx
  · intro hx
    simp [reset_booking_state] at hx
  · intro hx
    simp [reset_booking_state] at hx
  · intro hx
    simp [reset_booking_state] at hx
  · intro hx
    simp [reset_booking_state] at hx
  · intro hx
    simp [reset_booking_state] at hx

theorem wf_set_topic (s : ConversationState) (tp : String) (h : StateWF s)
    (hd : s.disclaimer_done = true) (htp : tp ∈ TOPICS) :
    StateWF { s with topic := some tp } := by
  obtain ⟨h1, h2, h3, h4, h5, h6, h7, h8, h9, h10, h11, h12⟩ := h
  refine ⟨?_, h2, h3, h4, h5, h6, ?_, ?_, h9, h10, h11, h12⟩
  · intro x hx
    simp at hx
    rw [← hx]
    exact htp
  · intro _
    exact hd
  · intro _
    simp

theorem wf_set_day (s : ConversationState) (d : String) (h : StateWF s)
    (ht : s.topic ≠ none) (hd : d ≠ "") :
    StateWF { s with day_pref := some d } := by
  obtain ⟨h1, h2, h3, h4, h5, h6, h7, h8, h9, h10, h11, h12⟩ := h
  refine ⟨h1, ?_, h3, h4, h5, h6, h7, ?_, ?_, h10, h11, h12⟩
  · intro x hx
    simp at hx
    rw [← hx]
    exact hd
  · intro _
    exact ht
  · intro _
    simp

theorem wf_set_time (s : ConversationState) (t : String) (h : StateWF s)
    (hd : s.day_pref ≠ none) (ht : t ≠ "") :
    StateWF { s with time_pref := some t } := by
  obtain ⟨h1, h2, h3, h4, h5, h6, h7, h8, h9, h10, h11, h12⟩ := h
  refine ⟨h1, h2, ?_, h4, h5, h6, h7, h8, ?_, ?_, h11, h12⟩
  · intro x hx
    simp at hx
    rw [← hx]
    exact ht
  · intro _
    exact hd
  · intro _
    simp

theorem wf_set_offered (s : ConversationState) (l : List Slot) (h : StateWF s)
    (ht : s.time_pref ≠ none) (hl : l.length = 2) :
    StateWF { s with offered_slots := some l } := by
  obtain ⟨h1, h2, h3, h4, h5, h6, h7, h8, h9, h10, h11, h12⟩ := h
  refine ⟨h1, h2, h3, ?_, h5, h6, h7, h8, h9, ?_, ?_, h12⟩
  · intro x hx
    simp at hx
    rw [← hx]
    exact hl
  · intro _
    exact ht
  · intro _
    simp

theorem wf_set_selected (s : ConversationState) (sl : Slot) (h : StateWF s)
    (ho : s.offered_slots ≠ none) :
    StateWF { s with selected_slot := some sl } := by
  obtain ⟨h1, h2, h3, h4, h5, h6, h7, h8, h9, h10, h11, h12⟩ := h
  refine ⟨h1, h2, h3, h4, h5, h6, h7, h8, h9, h10, ?_, ?_⟩
  · intro _
    exact ho
  · intro _
    simp

theorem wf_clear_selected (s : ConversationState) (h : StateWF s)
    (hb : s.booking_code = none) :
    StateWF { s with selected_slot := none } := by
  obtain ⟨h1, h2, h3, h4, h5, h6, h7, h8, h9, h10, h11, h12⟩ := h
  refine ⟨h1, h2, h3, h4, h5, h6, h7, h8, h9, h10, ?_, ?_⟩
  · intro hx
    simp at hx
  · intro hx
    simp only at hx
    exact absurd hb hx

theorem wf_set_booking (s : ConversationState) (c : String) (h : StateWF s)
    (hc : c ≠ "") (hs : s.selected_slot ≠ none) :
    StateWF { s with booking_code := some c } := by
  obtain ⟨h1, h2, h3, h4, h5, h6, h7, h8, h9, h10, h11, h12⟩ := h
  refine ⟨h1, h2, h3, h4, ?_, h6, h7, h8, h9, h10, h11, ?_⟩
  · intro x hx
    simp at hx
    rw [← hx]
    exact hc
  · intro _
    exact hs

/-! Preservation of the invariant by the engine, step by step. -/

theorem wf_book_code_step (w : World) (lower : String) (g : CodeGen)
    (hwf : StateWF w.state) (hsel : w.state.selected_slot.isSome = true) :
    StateWF (book_code_step w lower g).1.state := by
  unfold book_code_step
  split_ifs with h1 h2
  · exact hwf
  · exact wf_set_booking _ _ hwf (generate_ne g)
      (Option.ne_none_iff_isSome.mpr hsel)
  · exact wf_clear_selected _ hwf (truthyO_false_none _
      (Bool.not_eq_true _ ▸ h1) hwf.code_ok)

theorem wf_book_select_step (w : World) (lower : String) (g : CodeGen)
    (hwf : StateWF w.state) (hoff : truthySlots w.state.offered_slots = true) :
    StateWF (book_select_step w lower g).1.state := by
  have hne : w.state.offered_slots ≠ none := by
    intro h
    rw [h] at hoff
    simp [truthySlots] at hoff
  unfold book_select_step
  split_ifs with h1 h2 h3
  · exact wf_book_code_step _ _ _ hwf h1
  · exact wf_set_selected _ _ hwf hne
  · exact wf_set_selected _ _ hwf hne
  · exact hwf

theorem wf_book_offer_step (w : World) (lower : String) (g : CodeGen)
    (hwf : StateWF w.state) (htime : truthyO w.state.time_pref = true) :
    StateWF (book_offer_step w lower g).1.state := by
  have htne : w.state.time_pref ≠ none := by
    intro h
    rw [h] at htime
    simp [truthyO] at htime
  have hl := mock_pick_len w.state.day_pref w.state.time_pref
  simp only [book_offer_step]
  split_ifs with h1 h2
  · exact wf_book_select_step _ _ _ hwf h1
  · exfalso
    rw [Bool.or_eq_true, List.isEmpty_iff, decide_eq_true_eq] at h2
    rcases h2 with h2 | h2
    · rw [h2] at hl
      simp at hl
    · omega
  · exact wf_set_offered _ _ hwf htne hl

theorem wf_book_time_step (w : World) (info : ExtractionResult) (lower : String)
    (g : CodeGen) (hwf : StateWF w.state)
    (hday : truthyO w.state.day_pref = true) :
    StateWF (book_time_step w info lower g).1.state := by
  have hdne : w.state.day_pref ≠ none := by
    intro h
    rw [h] at hday
    simp [truthyO] at hday
  unfold book_time_step
  split_ifs with h1 h2
  · exact wf_book_offer_step _ _ _ hwf h1
  · obtain ⟨t, hts, htn⟩ := truthyO_some _ h2
    rw [hts]
    exact wf_book_offer_step _ _ _ (wf_set_time _ _ hwf hdne htn)
      (by simp [truthyO, htn])
  · exact hwf

theorem wf_book_day_step (w : World) (info : ExtractionResult) (lower : String)
    (g : CodeGen) (hwf : StateWF w.state)
    (htop : truthyO w.state.topic = true) :
    StateWF (book_day_step w info lower g).1.state := by
  have htne : w.state.topic ≠ none := by
    intro h
    rw [h] at htop
    simp [truthyO] at htop
  unfold book_day_step
  split_ifs with h1 h2
  · exact wf_book_time_step _ _ _ _ hwf h1
  · obtain ⟨d, hds, hdn⟩ := truthyO_some _ h2
    rw [hds]
    exact wf_book_time_step _ _ _ _ (wf_set_day _ _ hwf htne hdn)
      (by simp [truthyO, hdn])
  · exact hwf

theorem wf_book_topic_step (w : World) (info : ExtractionResult) (lower : String)
    (g : CodeGen) (hwf : StateWF w.state)
    (hd : w.state.disclaimer_done = true) :
    StateWF (book_topic_step w info lower g).1.state := by
  unfold book_topic_step
  split_ifs with h1 h2
  · exact wf_book_day_step _ _ _ _ hwf h1
  · cases hi : info.topic with
    | none =>
      rw [hi] at h2
      simp [optMemTopics] at h2
    | some tp =>
      simp only [hi] at h2 ⊢
      simp only [optMemTopics, decide_eq_true_eq] at h2
      exact wf_book_day_step _ _ _ _ (wf_set_topic _ _ hwf hd h2)
        (by simp [truthyO, topics_ne tp h2])
  · exact hwf

theorem wf_dispatch_tail (w : World) (intent lower : String)
    (info : ExtractionResult) (g : CodeGen) (hwf : StateWF w.state)
    (hd : w.state.disclaimer_done = true) :
    StateWF (dispatch_tail w intent lower info g).1.state := by
  unfold dispatch_tail
  split_ifs with h1 h2 h3 h4 <;>
    first
      | exact hwf
      | (exact wf_book_topic_step _ _ _ _ (wf_set_intent _ _ hwf) hd)
      | (exact wf_book_topic_step _ _ _ _ hwf hd)
      | (split <;> first
          | exact hwf
          | (split_ifs <;> exact hwf))

theorem wf_dispatch (w : World) (text' lower : String) (info : ExtractionResult)
    (g : CodeGen) (hwf : StateWF w.state) (hd : w.state.disclaimer_done = true) :
    StateWF (dispatch w text' lower info g).1.state := by
  simp only [dispatch]
  split_ifs with h1 h2 h3 h4
  · exact wf_reset_all _
  · cases he : extract_booking_code text' with
    | none => exact wf_set_intent _ _ hwf
    | some c => exact wf_reset_all _
  · exact wf_dispatch_tail _ _ _ _ _
      (wf_set_intent _ _ (wf_set_intent _ _ hwf)) hd
  · cases he : extract_booking_code text' with
    | none => exact wf_set_intent _ _ hwf
    | some c => exact wf_resched_store _ _ (ebc_ne _ _ he)
  · exact wf_dispatch_tail _ _ _ _ _ (wf_set_intent _ _ hwf) hd

theorem wf_next_agent_reply (w : World) (t : String) (svc : ServiceOutcome)
    (g : CodeGen) (hwf : StateWF w.state) :
    StateWF (next_agent_reply w t svc g).1.state := by
  simp only [next_agent_reply]
  split_ifs with h1 h2 h3
  · exact hwf
  · exact hwf
  · exact wf_set_disclaimer _ hwf
  · exact hwf
  · exact wf_dispatch _ _ _ _ _ hwf (by
      cases hb : w.state.disclaimer_done
      · exact absurd hb h3
      · rfl)

theorem initState_wf : StateWF initState := by
  refine ⟨?_, ?_, ?_, ?_, ?_, ?_, ?_, ?_, ?_, ?_, ?_, ?_⟩ <;>
    simp [initState]

/-- Every reachable world satisfies the invariant. -/
theorem reachable_wf (w : World) (h : Reachable w) : StateWF w.state := by
  induction h with
  | init => exact initState_wf
  | step w t svc g _ ih => exact wf_next_agent_reply w t svc g ih

/-! ### Evaluation lemmas for the engine under known conditions -/

theorem book_topic_skip (w : World) (info : ExtractionResult) (lower : String)
    (g : CodeGen) (h : truthyO w.state.topic = true) :
    book_topic_step w info lower g = book_day_step w info lower g := by
  simp [book_topic_step, h]

theorem book_day_skip (w : World) (info : ExtractionResult) (lower : String)
    (g : CodeGen) (h : truthyO w.state.day_pref = true) :
    book_day_step w info lower g = book_time_step w info lower g := by
  simp [book_day_step, h]

theorem book_time_skip (w : World) (info : ExtractionResult) (lower : String)
    (g : CodeGen) (h : truthyO w.state.time_pref = true) :
    book_time_step w info lower g = book_offer_step w lower g := by
  simp [book_time_step, h]

theorem book_offer_skip (w : World) (lower : String) (g : CodeGen)
    (h : truthySlots w.state.offered_slots = true) :
    book_offer_step w lower g = book_select_step w lower g := by
  simp [book_offer_step, h]

theorem book_select_skip (w : World) (lower : String) (g : CodeGen)
    (h : w.state.selected_slot.isSome = true) :
    book_select_step w lower g = book_code_step w lower g := by
  simp [book_select_step, h]

theorem book_code_allset (w : World) (lower : String) (g : CodeGen)
    (h : truthyO w.state.booking_code = true) :
    book_code_step w lower g = (w, allSetReply) := by
  simp [book_code_step, h]

theorem book_code_confirm (w : World) (lower : String) (g : CodeGen)
    (hb : truthyO w.state.booking_code = false)
    (hyes : str_contains lower "yes" = true) :
    book_code_step w lower g =
      ({ state := { w.state with booking_code := some (generate_booking_code g) },
         bookings := dict_insert w.bookings (generate_booking_code g)
           { topic := w.state.topic.getD "",
             slot := w.state.selected_slot.getD defaultSlot,
             timezone := TIMEZONE_LABEL } },
       bookedReply (generate_booking_code g) (w.state.selected_slot.getD defaultSlot)
         (w.state.topic.getD "")) := by
  simp [book_code_step, hb, hyes]

/-- With every booking field already set, the book-new chain falls through
to the final fixed reply. -/
theorem book_chain_allset (w : World) (info : ExtractionResult) (lower : String)
    (g : CodeGen) (htop : truthyO w.state.topic = true)
    (hday : truthyO w.state.day_pref = true)
    (htime : truthyO w.state.time_pref = true)
    (hoff : truthySlots w.state.offered_slots = true)
    (hsel : w.state.selected_slot.isSome = true)
    (hcode : truthyO w.state.booking_code = true) :
    book_topic_step w info lower g = (w, allSetReply) := by
  rw [book_topic_skip _ _ _ _ htop, book_day_skip _ _ _ _ hday,
    book_time_skip _ _ _ _ htime, book_offer_skip _ _ _ hoff,
    book_select_skip _ _ _ hsel, book_code_allset _ _ _ hcode]

/-- With everything but the booking code set, a "yes" turn books the
selected slot. -/
theorem book_chain_confirm (w : World) (info : ExtractionResult) (lower : String)
    (g : CodeGen) (htop : truthyO w.state.topic = true)
    (hday : truthyO w.state.day_pref = true)
    (htime : truthyO w.state.time_pref = true)
    (hoff : truthySlots w.state.offered_slots = true)
    (hsel : w.state.selected_slot.isSome = true)
    (hb : truthyO w.state.booking_code = false)
    (hyes : str_contains lower "yes" = true) :
    book_topic_step w info lower g =
      ({ state := { w.state with booking_code := some (generate_booking_code g) },
         bookings := dict_insert w.bookings (generate_booking_code g)
           { topic := w.state.topic.getD "",
             slot := w.state.selected_slot.getD defaultSlot,
             timezone := TIMEZONE_LABEL } },
       bookedReply (generate_booking_code g) (w.state.selected_slot.getD defaultSlot)
         (w.state.topic.getD "")) := by
  rw [book_topic_skip _ _ _ _ htop, book_day_skip _ _ _ _ hday,
    book_time_skip _ _ _ _ htime, book_offer_skip _ _ _ hoff,
    book_select_skip _ _ _ hsel, book_code_confirm _ _ _ hb hyes]

theorem book_code_keeps (w : World) (lower : String) (g : CodeGen) :
    (book_code_step w lower g).1.state.topic = w.state.topic ∧
    (book_code_step w lower g).1.state.intent = w.state.intent := by
  simp only [book_code_step]
  split_ifs <;> exact ⟨rfl, rfl⟩

theorem book_select_keeps (w : World) (lower : String) (g : CodeGen) :
    (book_select_step w lower g).1.state.topic = w.state.topic ∧
    (book_select_step w lower g).1.state.intent = w.state.intent := by
  simp only [book_select_step]
  split_ifs with h1 h2 h3
  · exact book_code_keeps w lower g
  · exact ⟨rfl, rfl⟩
  · exact ⟨rfl, rfl⟩
  · exact ⟨rfl, rfl⟩

theorem book_offer_keeps (w : World) (lower : String) (g : CodeGen) :
    (book_offer_step w lower g).1.state.topic = w.state.topic ∧
    (book_offer_step w lower g).1.state.intent = w.state.intent := by
  simp only [book_offer_step]
  split_ifs with h1 h2
  · exact book_select_keeps w lower g
  · exact ⟨rfl, rfl⟩
  · exact ⟨rfl, rfl⟩

theorem book_time_keeps (w : World) (info : ExtractionResult) (lower : String)
    (g : CodeGen) :
    (book_time_step w info lower g).1.state.topic = w.state.topic ∧
    (book_time_step w info lower g).1.state.intent = w.state.intent := by
  simp only [book_time_step]
  split_ifs with h1 h2
  · exact book_offer_keeps w lower g
  · exact book_offer_keeps
      { w with state := { w.state with time_pref := info.time_preference } } lower g
  · exact ⟨rfl, rfl⟩

theorem book_day_keeps (w : World) (info : ExtractionResult) (lower : String)
    (g : CodeGen) :
    (book_day_step w info lower g).1.state.topic = w.state.topic ∧
    (book_day_step w info lower g).1.state.intent = w.state.intent := by
  simp only [book_day_step]
  split_ifs with h1 h2
  · exact book_time_keeps w info lower g
  · exact book_time_keeps
      { w with state := { w.state with day_pref := info.day_preference } } info lower g
  · exact ⟨rfl, rfl⟩

theorem book_topic_keeps (w : World) (info : ExtractionResult) (lower : String)
    (g : CodeGen) (h : truthyO w.state.topic = true) :
    (book_topic_step w info lower g).1.state.topic = w.state.topic ∧
    (book_topic_step w info lower g).1.state.intent = w.state.intent := by
  rw [book_topic_skip w info lower g h]
  exact book_day_keeps w info lower g

/-- With a started booking (truthy `offered_slots` or `topic`), dispatch
records intent `book_new` and runs the book-new chain. -/
theorem dispatch_sticky (w : World) (text' lower : String)
    (info : ExtractionResult) (g : CodeGen)
    (h : (truthySlots w.state.offered_slots || truthyO w.state.topic) = true) :
    dispatch w text' lower info g =
      book_topic_step
        { w with state := { w.state with intent := some "book_new" } }
        info lower g := by
  have he : effective_intent w.state info = "book_new" := by
    simp [effective_intent, h]
  simp only [dispatch, he]
  rw [if_neg (by decide), if_neg (by decide)]
  simp only [dispatch_tail]
  rw [if_neg (by decide), if_neg (by decide), if_neg (by decide)]

/-- Under the four guards, a turn is the dispatch of the extraction result
on the stripped text. -/
theorem next_reply_dispatch (w : World) (t : String) (svc : ServiceOutcome)
    (g : CodeGen) (hne : pyStrip t ≠ "")
    (hpii : contains_pii (pyStrip t) = false)
    (hdisc : w.state.disclaimer_done = true)
    (hadv : advice_kw (pyLower (pyStrip t)) = false) :
    next_agent_reply w t svc g =
      dispatch w (pyStrip t) (pyLower (pyStrip t))
        (detect_intent_and_extract w.state (pyStrip t) svc) g := by
  simp only [next_agent_reply, if_neg hne, hpii, hdisc, hadv]
  simp

theorem truthySlots_of_wf_ne (o : Option (List Slot))
    (hok : ∀ l, o = some l → l.length = 2) (h : o ≠ none) :
    truthySlots o = true := by
  obtain ⟨l, hl⟩ := Option.ne_none_iff_exists'.mp h
  rw [hl]
  have h2 := hok l hl
  cases l with
  | nil => simp at h2
  | cons a as => simp [truthySlots]

theorem dict_get_insert (m : List (String × Booking)) (k : String) (v : Booking) :
    dict_get (dict_insert m k v) k = some v := by
  simp [dict_get, dict_insert, List.find?_cons_of_pos]

/-! ### A concrete booking dialogue, used by the witnesses -/

/-- Oracle used by the concrete witnesses: a code generator that always
draws the first alphabet character (so the generated code is `NL-AAAA`). -/
def demoGen : CodeGen := fun _ => (0 : Fin 36)

def demoW1 : World :=
  (next_agent_reply initWorld "hi" ServiceOutcome.err demoGen).1

def demoW2 : World :=
  (next_agent_reply demoW1 "book kyc" ServiceOutcome.err demoGen).1

def demoW3 : World :=
  (next_agent_reply demoW2 "tomorrow" ServiceOutcome.err demoGen).1

def demoW4 : World :=
  (next_agent_reply demoW3 "morning" ServiceOutcome.err demoGen).1

def demoW5 : World :=
  (next_agent_reply demoW4 "option 1" ServiceOutcome.err demoGen).1

def demoW6 : World :=
  (next_agent_reply demoW5 "yes" ServiceOutcome.err demoGen).1

theorem demoW1_reach : Reachable demoW1 :=
  Reachable.step initWorld "hi" ServiceOutcome.err demoGen Reachable.init

theorem demoW2_reach : Reachable demoW2 :=
  Reachable.step demoW1 "book kyc" ServiceOutcome.err demoGen demoW1_reach

theorem demoW3_reach : Reachable demoW3 :=
  Reachable.step demoW2 "tomorrow" ServiceOutcome.err demoGen demoW2_reach

theorem demoW4_reach : Reachable demoW4 :=
  Reachable.step demoW3 "morning" ServiceOutcome.err demoGen demoW3_reach

theorem demoW5_reach : Reachable demoW5 :=
  Reachable.step demoW4 "option 1" ServiceOutcome.err demoGen demoW4_reach

theorem demoW6_reach : Reachable demoW6 :=
  Reachable.step demoW5 "yes" ServiceOutcome.err demoGen demoW5_reach

/-! ### Claim theorems -/

/-- C1 (counterexample): with a service response that contains no JSON
object, `detect_intent_and_extract` does not return the Local Fallback
Parser's result — for the input "cancel" the fallback infers `cancel` while
the adapter returns the fixed default with intent `other`. -/
theorem claim_C1_counterexample :
    (extract_first_json_object (pyStrip "no json here")).isNone = true ∧
    detect_intent_and_extract initState "cancel" (ServiceOutcome.ok "no json here") ≠
      local_intent_fallback initState "cancel" := by
  constructor
  · decide
  · decide

/-- C1 (amended): `detect_intent_and_extract` never fails outward (it is a
total function).  When the service call raises, the result is exactly the
Local Fallback Parser's result for the text; when the call succeeds but the
response contains no syntactically valid brace-delimited JSON object, the
result is the fixed default `{intent: other, all slots null}`, not the
fallback parser's result. -/
theorem claim_C1 (st : ConversationState) (text response : String)
    (hne : pyStrip text ≠ "") :
    detect_intent_and_extract st text ServiceOutcome.err =
      local_intent_fallback st text ∧
    ((extract_first_json_object (pyStrip response)).isNone = true →
      detect_intent_and_extract st text (ServiceOutcome.ok response) =
        json_fallback) := by
  have hcond : ¬(text = "" ∨ pyStrip text = "") := by
    rintro (h | h)
    · subst h
      exact hne rfl
    · exact hne h
  constructor
  · simp only [detect_intent_and_extract, if_neg hcond]
  · intro h
    simp only [detect_intent_and_extract, if_neg hcond]
    cases heq : extract_first_json_object (pyStrip response) with
    | none => rfl
    | some entries => rw [heq] at h; simp at h

/-- C1 (witness): concrete instance of the amended claim. -/
theorem claim_C1_witness :
    pyStrip "cancel" ≠ "" ∧
    (extract_first_json_object (pyStrip "x")).isNone = true ∧
    detect_intent_and_extract initState "cancel" ServiceOutcome.err =
      local_intent_fallback initState "cancel" ∧
    detect_intent_and_extract initState "cancel" (ServiceOutcome.ok "x") =
      json_fallback :=
  ⟨by decide, by decide, (claim_C1 initState "cancel" "x" (by decide)).1,
   (claim_C1 initState "cancel" "x" (by decide)).2 (by decide)⟩

/-- C4: any utterance matching one of the five PII patterns (email-like,
phone-like digit run, bare 10- or 12-digit run, or "account" followed later
by digits) makes `contains_pii` true, and such a turn is answered with the
fixed PII warning plus secure link before any intent or slot logic runs:
the returned `World` is exactly the input one (no booking sub-state, intent
or provided-code change). -/
theorem claim_C4 (w : World) (text : String) (svc : ServiceOutcome) (g : CodeGen)
    (hne : pyStrip text ≠ "")
    (hp : pat_email (pyLower (pyStrip text)).data = true ∨
      pat_phone (pyLower (pyStrip text)).data = true ∨
      pat_ndigits 10 (pyLower (pyStrip text)).data = true ∨
      pat_ndigits 12 (pyLower (pyStrip text)).data = true ∨
      pat_account (pyLower (pyStrip text)).data = true) :
    contains_pii (pyStrip text) = true ∧
    next_agent_reply w text svc g = (w, pii_reply w.state) := by
  have hpii : contains_pii (pyStrip text) = true := by
    unfold contains_pii
    rcases hp with h | h | h | h | h <;> simp [h]
  refine ⟨hpii, ?_⟩
  simp only [next_agent_reply, if_neg hne, hpii, if_pos]

/-- C4 (witness): the email-like utterance "a@b.io" is intercepted on an
arbitrary concrete state. -/
theorem claim_C4_witness :
    pyStrip "a@b.io" ≠ "" ∧
    pat_email (pyLower (pyStrip "a@b.io")).data = true ∧
    contains_pii (pyStrip "a@b.io") = true ∧
    next_agent_reply initWorld "a@b.io" ServiceOutcome.err demoGen =
      (initWorld, pii_reply initWorld.state) :=
  ⟨by decide, by decide,
   (claim_C4 initWorld "a@b.io" ServiceOutcome.err demoGen (by decide)
     (Or.inl (by decide))).1,
   (claim_C4 initWorld "a@b.io" ServiceOutcome.err demoGen (by decide)
     (Or.inl (by decide))).2⟩

/-- C5 (counterexample): the claim as stated fails.  A first turn whose
input text is non-empty does not always get the disclaimer: the whitespace
input " " is answered with the repeat prompt, and the PII input "a@b.io" is
answered with the PII warning; in both cases `disclaimer_done` stays false. -/
theorem claim_C5_counterexample :
    (" " : String) ≠ "" ∧ initWorld.state.disclaimer_done = false ∧
    (next_agent_reply initWorld " " ServiceOutcome.err demoGen).2 ≠
      disclaimerReply ∧
    (next_agent_reply initWorld " " ServiceOutcome.err demoGen).1.state.disclaimer_done
      = false ∧
    ("a@b.io" : String) ≠ "" ∧
    (next_agent_reply initWorld "a@b.io" ServiceOutcome.err demoGen).2 ≠
      disclaimerReply ∧
    (next_agent_reply initWorld "a@b.io" ServiceOutcome.err demoGen).1.state.disclaimer_done
      = false := by
  refine ⟨by decide, by decide, by decide, by decide, by decide, by decide, by decide⟩

/-- C5 (amended): for every first turn (`disclaimer_done` false) whose text
is non-empty after stripping and which does not trigger the PII guard,
`next_agent_reply` returns the disclaimer reply and the only state change is
`disclaimer_done := true`. -/
theorem claim_C5 (w : World) (text : String) (svc : ServiceOutcome) (g : CodeGen)
    (hdisc : w.state.disclaimer_done = false)
    (hne : pyStrip text ≠ "")
    (hpii : contains_pii (pyStrip text) = false) :
    next_agent_reply w text svc g =
      ({ w with state := { w.state with disclaimer_done := true } },
       disclaimerReply) := by
  simp only [next_agent_reply, if_neg hne, hpii, hdisc]
  simp

/-- C5 (witness): concrete instance of the amended claim. -/
theorem claim_C5_witness :
    initWorld.state.disclaimer_done = false ∧
    pyStrip "hello" ≠ "" ∧
    contains_pii (pyStrip "hello") = false ∧
    next_agent_reply initWorld "hello" ServiceOutcome.err demoGen =
      ({ initWorld with state := { initWorld.state with disclaimer_done := true } },
       disclaimerReply) :=
  ⟨by decide, by decide, by decide,
   claim_C5 initWorld "hello" ServiceOutcome.err demoGen (by decide) (by decide)
     (by decide)⟩

/-- C6: whenever the fallback parser's keyword rules infer `other` or
`check_availability` but a topic, day preference or time preference was
extracted from the text, the returned intent is escalated to `book_new`. -/
theorem claim_C6 (st : ConversationState) (text : String)
    (hkw : lf_intent_kw (pyLower text) = "other" ∨
      lf_intent_kw (pyLower text) = "check_availability")
    (hext : lf_topic (pyLower text) ≠ none ∨ lf_day (pyLower text) ≠ none ∨
      lf_time (pyLower text) ≠ none) :
    (local_intent_fallback st text).intent = some "book_new" := by
  have hgave : (truthyO (lf_topic (pyLower text)) ||
      truthyO (lf_day (pyLower text)) || truthyO (lf_time (pyLower text))) = true := by
    rcases hext with h | h | h
    · obtain ⟨s, hs⟩ := Option.ne_none_iff_exists'.mp h
      simp [truthyO_of_some_ne _ _ hs (lf_topic_ne _ _ hs)]
    · obtain ⟨s, hs⟩ := Option.ne_none_iff_exists'.mp h
      simp [truthyO_of_some_ne _ _ hs (lf_day_ne _ _ hs)]
    · obtain ⟨s, hs⟩ := Option.ne_none_iff_exists'.mp h
      simp [truthyO_of_some_ne _ _ hs (lf_time_ne _ _ hs)]
  unfold local_intent_fallback
  rcases hkw with h | h <;> simp [h, hgave]

/-- C6 (witness): "kyc" alone infers intent `other` with a topic extracted,
and the fallback parser escalates it to `book_new`. -/
theorem claim_C6_witness :
    lf_intent_kw (pyLower "kyc") = "other" ∧
    lf_topic (pyLower "kyc") ≠ none ∧
    (local_intent_fallback initState "kyc").intent = some "book_new" :=
  ⟨by decide, by decide,
   claim_C6 initState "kyc" (Or.inl (by decide)) (Or.inl (by decide))⟩

/-- C7: `mock_pick_two_slots` ignores its day-preference argument entirely;
the result is determined solely by the time-preference keyword bucket —
`[slot4, slot3]` when the lowercased time preference contains "even", "5" or
"6", else `[slot3, slot2]` when it contains "after", "3" or "4", else
`[slot1, slot2]` — always exactly two slots, all drawn from the fixed
four-slot catalog. -/
theorem claim_C7 (d d' tp : Option String) :
    mock_pick_two_slots d tp = mock_pick_two_slots d' tp ∧
    mock_pick_two_slots d tp =
      (if str_contains (pyLower (orEmpty tp)) "even" ||
          str_contains (pyLower (orEmpty tp)) "5" ||
          str_contains (pyLower (orEmpty tp)) "6" then [slot104, slot103]
       else if str_contains (pyLower (orEmpty tp)) "after" ||
          str_contains (pyLower (orEmpty tp)) "3" ||
          str_contains (pyLower (orEmpty tp)) "4" then [slot103, slot102]
       else [slot101, slot102]) ∧
    (mock_pick_two_slots d tp).length = 2 ∧
    (mock_pick_two_slots d tp).all (fun s => decide (s ∈ MOCK_SLOTS)) = true := by
  refine ⟨rfl, ?_, mock_pick_len d tp, ?_⟩
  · simp only [mock_pick_two_slots]
    split_ifs <;> rfl
  · simp only [mock_pick_two_slots]
    split_ifs <;> decide

/-- C2: on every reachable world whose booking flow has started
(`offered_slots` or `topic` non-null), any turn that reaches dispatch (text
non-empty after stripping, no PII, no advice keyword; the disclaimer is
already shown on such states) is forced to effective intent `book_new` —
recorded in `state.intent` — and leaves the flow started, so the override
applies again on every subsequent turn until the sub-state is reset. -/
theorem claim_C2 (w : World) (hr : Reachable w)
    (hstart : w.state.offered_slots ≠ none ∨ w.state.topic ≠ none)
    (text : String) (svc : ServiceOutcome) (g : CodeGen)
    (hne : pyStrip text ≠ "") (hpii : contains_pii (pyStrip text) = false)
    (hadv : advice_kw (pyLower (pyStrip text)) = false) :
    (next_agent_reply w text svc g).1.state.intent = some "book_new" ∧
    ((next_agent_reply w text svc g).1.state.offered_slots ≠ none ∨
      (next_agent_reply w text svc g).1.state.topic ≠ none) := by
  have hwf := reachable_wf w hr
  have htne : w.state.topic ≠ none := by
    rcases hstart with h | h
    · exact hwf.ord_day (hwf.ord_time (hwf.ord_off h))
    · exact h
  have htop : truthyO w.state.topic = true :=
    truthyO_of_wf_ne _ (fun x hx => topics_ne x (hwf.topic_ok x hx)) htne
  have hdisc := hwf.disc_of_topic htne
  rw [next_reply_dispatch w text svc g hne hpii hdisc hadv,
    dispatch_sticky _ _ _ _ _ (by rw [htop, Bool.or_true])]
  have hkeeps := book_topic_keeps
    { w with state := { w.state with intent := some "book_new" } }
    (detect_intent_and_extract w.state (pyStrip text) svc)
    (pyLower (pyStrip text)) g htop
  constructor
  · rw [hkeeps.2]
  · right
    rw [hkeeps.1]
    exact htne

/-- C2 (witness): after "hi" and "book kyc" the topic is set, and a further
turn is forced to `book_new` with the topic still set. -/
theorem claim_C2_witness :
    demoW2.state.topic ≠ none ∧
    pyStrip "when is it" ≠ "" ∧
    (next_agent_reply demoW2 "when is it" ServiceOutcome.err demoGen).1.state.intent =
      some "book_new" ∧
    ((next_agent_reply demoW2 "when is it" ServiceOutcome.err demoGen).1.state.offered_slots
        ≠ none ∨
      (next_agent_reply demoW2 "when is it" ServiceOutcome.err demoGen).1.state.topic
        ≠ none) :=
  ⟨by decide, by decide,
   (claim_C2 demoW2 demoW2_reach (Or.inr (by decide)) "when is it"
     ServiceOutcome.err demoGen (by decide) (by decide) (by decide)).1,
   (claim_C2 demoW2 demoW2_reach (Or.inr (by decide)) "when is it"
     ServiceOutcome.err demoGen (by decide) (by decide) (by decide)).2⟩

/-- C3: in every reachable world the booking sub-state is filled strictly
left to right (topic → day_preference → time_preference → offered_slots →
selected_slot → booking_code): a later field is never non-null while an
earlier one is null. -/
theorem claim_C3 (w : World) (hr : Reachable w) :
    (w.state.day_pref ≠ none → w.state.topic ≠ none) ∧
    (w.state.time_pref ≠ none → w.state.day_pref ≠ none) ∧
    (w.state.offered_slots ≠ none → w.state.time_pref ≠ none) ∧
    (w.state.selected_slot ≠ none → w.state.offered_slots ≠ none) ∧
    (w.state.booking_code ≠ none → w.state.selected_slot ≠ none) := by
  have hwf := reachable_wf w hr
  exact ⟨hwf.ord_day, hwf.ord_time, hwf.ord_off, hwf.ord_sel, hwf.ord_code⟩

/-- C3 (witness): the fully booked reachable world `demoW6` instantiates
every implication non-vacuously. -/
theorem claim_C3_witness :
    demoW6.state.booking_code ≠ none ∧ demoW6.state.selected_slot ≠ none ∧
    demoW6.state.offered_slots ≠ none ∧ demoW6.state.time_pref ≠ none ∧
    demoW6.state.day_pref ≠ none ∧ demoW6.state.topic ≠ none := by
  have h := claim_C3 demoW6 demoW6_reach
  exact ⟨by decide, h.2.2.2.2 (by decide), h.2.2.2.1 (by decide),
    h.2.2.1 (by decide), h.2.1 (by decide), h.1 (by decide)⟩

/-- C8: from a state with topic, day, time, offered slots and a selected
slot all set and no booking code yet, a non-intercepted turn containing
"yes" generates a code of shape `NL-[A-Z0-9]{4}`, stores it in
`booking_code`, and creates a Booking record under that code holding the
confirmed topic, the selected slot and the timezone label, which an
immediate lookup in the store returns. -/
theorem claim_C8 (w : World) (text : String) (svc : ServiceOutcome) (g : CodeGen)
    (hdisc : w.state.disclaimer_done = true)
    (htop : truthyO w.state.topic = true)
    (hday : truthyO w.state.day_pref = true)
    (htime : truthyO w.state.time_pref = true)
    (hoff : truthySlots w.state.offered_slots = true)
    (hsel : w.state.selected_slot.isSome = true)
    (hcode : w.state.booking_code = none)
    (hne : pyStrip text ≠ "") (hpii : contains_pii (pyStrip text) = false)
    (hadv : advice_kw (pyLower (pyStrip text)) = false)
    (hyes : str_contains (pyLower (pyStrip text)) "yes" = true) :
    code_format (generate_booking_code g) = true ∧
    (next_agent_reply w text svc g).1.state.booking_code =
      some (generate_booking_code g) ∧
    dict_get (next_agent_reply w text svc g).1.bookings (generate_booking_code g) =
      some { topic := w.state.topic.getD "",
             slot := w.state.selected_slot.getD defaultSlot,
             timezone := TIMEZONE_LABEL } := by
  have hb : truthyO w.state.booking_code = false := by
    rw [hcode]
    rfl
  rw [next_reply_dispatch w text svc g hne hpii hdisc hadv,
    dispatch_sticky _ _ _ _ _ (by rw [htop, Bool.or_true]),
    book_chain_confirm { w with state := { w.state with intent := some "book_new" } }
      (detect_intent_and_extract w.state (pyStrip text) svc)
      (pyLower (pyStrip text)) g htop hday htime hoff hsel hb hyes]
  exact ⟨generate_code_format g, rfl, dict_get_insert _ _ _⟩

/-- C8 (witness): confirming with "yes" on the concrete dialogue state
`demoW5` books slot 1 under code `NL-AAAA`. -/
theorem claim_C8_witness :
    demoW5.state.booking_code = none ∧
    str_contains (pyLower (pyStrip "yes")) "yes" = true ∧
    code_format (generate_booking_code demoGen) = true ∧
    (next_agent_reply demoW5 "yes" ServiceOutcome.err demoGen).1.state.booking_code =
      some (generate_booking_code demoGen) ∧
    dict_get (next_agent_reply demoW5 "yes" ServiceOutcome.err demoGen).1.bookings
        (generate_booking_code demoGen) =
      some { topic := demoW5.state.topic.getD "",
             slot := demoW5.state.selected_slot.getD defaultSlot,
             timezone := TIMEZONE_LABEL } := by
  have h := claim_C8 demoW5 "yes" ServiceOutcome.err demoGen (by decide)
    (by decide) (by decide) (by decide) (by decide) (by decide) (by decide)
    (by decide) (by decide) (by decide) (by decide)
  exact ⟨by decide, by decide, h.1, h.2.1, h.2.2⟩

/-- C9: on any turn dispatched with effective intent `cancel`: with no
stored code and no code literal in the text, the engine asks for a code and
changes nothing but the recorded intent; otherwise (a code in the text or a
stored one, the stored one taking precedence) the reply confirms the
cancellation for that code and all booking sub-state fields and
`provided_code` are null afterwards. -/
theorem claim_C9 (w : World) (text : String) (svc : ServiceOutcome) (g : CodeGen)
    (hne : pyStrip text ≠ "") (hpii : contains_pii (pyStrip text) = false)
    (hdisc : w.state.disclaimer_done = true)
    (hadv : advice_kw (pyLower (pyStrip text)) = false)
    (hint : effective_intent w.state
      (detect_intent_and_extract w.state (pyStrip text) svc) = "cancel") :
    (truthyO w.state.provided_code = false →
      extract_booking_code (pyStrip text) = none →
      next_agent_reply w text svc g =
        ({ w with state := { w.state with intent := some "cancel" } },
         askCodeReply)) ∧
    (∀ c, truthyO w.state.provided_code = false →
      extract_booking_code (pyStrip text) = some c →
      next_agent_reply w text svc g =
        ({ w with state := { w.state with
             intent := some "cancel", topic := none, day_pref := none,
             time_pref := none, offered_slots := none, selected_slot := none,
             booking_code := none, provided_code := none } },
         cancelDoneReply c)) ∧
    (truthyO w.state.provided_code = true →
      next_agent_reply w text svc g =
        ({ w with state := { w.state with
             intent := some "cancel", topic := none, day_pref := none,
             time_pref := none, offered_slots := none, selected_slot := none,
             booking_code := none, provided_code := none } },
         cancelDoneReply (w.state.provided_code.getD ""))) := by
  rw [next_reply_dispatch w text svc g hne hpii hdisc hadv]
  simp only [dispatch, hint]
  rw [if_pos trivial]
  refine ⟨?_, ?_, ?_⟩
  · intro hp hext
    rw [if_neg (by simp [hp]), hext]
  · intro c hp hext
    rw [if_neg (by simp [hp]), hext]
    rfl
  · intro hp
    rw [if_pos (by simp [hp])]
    rfl

/-- C9 (witness): "cancel NL-A742" right after the disclaimer confirms the
cancellation for `NL-A742` and clears all sub-state. -/
theorem claim_C9_witness :
    effective_intent demoW1.state
      (detect_intent_and_extract demoW1.state (pyStrip "cancel NL-A742")
        ServiceOutcome.err) = "cancel" ∧
    extract_booking_code (pyStrip "cancel NL-A742") = some "NL-A742" ∧
    next_agent_reply demoW1 "cancel NL-A742" ServiceOutcome.err demoGen =
      ({ demoW1 with state := { demoW1.state with
           intent := some "cancel", topic := none, day_pref := none,
           time_pref := none, offered_slots := none, selected_slot := none,
           booking_code := none, provided_code := none } },
       cancelDoneReply "NL-A742") := by
  have h := claim_C9 demoW1 "cancel NL-A742" ServiceOutcome.err demoGen
    (by decide) (by decide) (by decide) (by decide) (by decide)
  exact ⟨by decide, by decide, h.2.1 "NL-A742" (by decide) (by decide)⟩

/-- C10: once `topic` is non-null on a reachable world, it stays non-null
across every turn — the sticky override (C2) then forces intent `book_new`
before dispatch, so the cancel and reschedule handlers, which contain the
only calls that reset the booking sub-state, are unreachable.  In
particular, once `booking_code` is set, every turn not intercepted by the
empty-input, PII or advice checks only records intent `book_new` and
returns the fixed reply "All set. Do you need anything else?", so a started
or completed booking can never be cancelled or rescheduled in-dialogue. -/
theorem claim_C10 (w : World) (hr : Reachable w) (text : String)
    (svc : ServiceOutcome) (g : CodeGen) :
    (w.state.topic ≠ none →
      (next_agent_reply w text svc g).1.state.topic ≠ none) ∧
    (w.state.booking_code ≠ none → pyStrip text ≠ "" →
      contains_pii (pyStrip text) = false →
      advice_kw (pyLower (pyStrip text)) = false →
      next_agent_reply w text svc g =
        ({ w with state := { w.state with intent := some "book_new" } },
         allSetReply)) := by
  have hwf := reachable_wf w hr
  constructor
  · intro htne
    have htop : truthyO w.state.topic = true :=
      truthyO_of_wf_ne _ (fun x hx => topics_ne x (hwf.topic_ok x hx)) htne
    have hdisc := hwf.disc_of_topic htne
    simp only [next_agent_reply]
    split_ifs with h1 h2 h3 h4
    · exact htne
    · exact htne
    · rw [hdisc] at h3
      exact absurd h3 (by decide)
    · exact htne
    · rw [dispatch_sticky _ _ _ _ _ (by rw [htop, Bool.or_true])]
      have hk := book_topic_keeps
        { w with state := { w.state with intent := some "book_new" } }
        (detect_intent_and_extract w.state (pyStrip text) svc)
        (pyLower (pyStrip text)) g htop
      rw [hk.1]
      exact htne
  · intro hb hne hpii hadv
    have hbne : w.state.booking_code ≠ none := hb
    have hsne := hwf.ord_code hbne
    have hone := hwf.ord_sel hsne
    have htimene := hwf.ord_off hone
    have hdayne := hwf.ord_time htimene
    have htne := hwf.ord_day hdayne
    have htop : truthyO w.state.topic = true :=
      truthyO_of_wf_ne _ (fun x hx => topics_ne x (hwf.topic_ok x hx)) htne
    have hday : truthyO w.state.day_pref = true :=
      truthyO_of_wf_ne _ hwf.day_ok hdayne
    have htime : truthyO w.state.time_pref = true :=
      truthyO_of_wf_ne _ hwf.time_ok htimene
    have hoff : truthySlots w.state.offered_slots = true :=
      truthySlots_of_wf_ne _ hwf.offered_ok hone
    have hsel : w.state.selected_slot.isSome = true :=
      Option.ne_none_iff_isSome.mp hsne
    have hcode : truthyO w.state.booking_code = true :=
      truthyO_of_wf_ne _ hwf.code_ok hbne
    have hdisc := hwf.disc_of_topic htne
    rw [next_reply_dispatch w text svc g hne hpii hdisc hadv,
      dispatch_sticky _ _ _ _ _ (by rw [htop, Bool.or_true]),
      book_chain_allset { w with state := { w.state with intent := some "book_new" } }
        (detect_intent_and_extract w.state (pyStrip text) svc)
        (pyLower (pyStrip text)) g htop hday htime hoff hsel hcode]

/-- C10 (witness): after the full booking dialogue (`demoW6`, booking code
set), the turn "is that all" only records intent `book_new` and returns the
fixed all-set reply, with the whole booking sub-state intact. -/
theorem claim_C10_witness :
    demoW6.state.topic ≠ none ∧ demoW6.state.booking_code ≠ none ∧
    (next_agent_reply demoW6 "is that all" ServiceOutcome.err demoGen).1.state.topic
      ≠ none ∧
    next_agent_reply demoW6 "is that all" ServiceOutcome.err demoGen =
      ({ demoW6 with state := { demoW6.state with intent := some "book_new" } },
       allSetReply) := by
  have h := claim_C10 demoW6 demoW6_reach "is that all" ServiceOutcome.err demoGen
  exact ⟨by decide, by decide, h.1 (by decide),
    h.2 (by decide) (by decide) (by decide) (by decide)⟩

end AdvisorAgent
